import Mathlib

/-!
Verification development for the SBSED repository (src/sbsed.py), a simple
binary stream editor.  The Python source is shallowly embedded: pure helper
functions (`LengthAdjust`, `Bs2Ba`, `Le2N`, `LeInt`, `Guid2N`, `SafeEval`),
the action compiler (`EditorAction.__init__`, embedded as `mkAction` over the
already-tokenized field list), and the stateful buffer editor (`Editor` with
`overwrite`, `copyover`, `edit`, `commit`, embedded as explicit state passing
returning `Except`, where an `Except.error` models an uncaught Python
exception).  Byte buffers are `List Nat` (each element a byte value), and
Python slice reads and slice assignments are modeled by `pySliceGet` and
`pySliceSet`, which follow the CPython index-clamping rules for step-1 slices.
-/

namespace SBSED

/-- A Python value as it flows through the action compiler: the offset and
length fields hold either an integer or a string (such as the chaining
sentinel "+"). -/
inductive PyVal where
  | int : Int → PyVal
  | str : String → PyVal
deriving DecidableEq

/-- Value of a single hexadecimal digit character, upper or lower case. -/
def hexDigitVal (c : Char) : Option Nat :=
  if c.toNat ≥ 48 ∧ c.toNat ≤ 57 then some (c.toNat - 48)
  else if c.toNat ≥ 97 ∧ c.toNat ≤ 102 then some (c.toNat - 87)
  else if c.toNat ≥ 65 ∧ c.toNat ≤ 70 then some (c.toNat - 55)
  else none

/-- Accumulating base-16 parse of a digit run; any non-hex character fails. -/
def hexAcc : List Char → Nat → Option Nat
  | [], acc => some acc
  | c :: cs, acc => (hexDigitVal c).bind (fun d => hexAcc cs (acc * 16 + d))

/-- Python `int(s, 16)` on a digit run without prefix: nonempty, hex digits only. -/
def parseHexDigits : List Char → Option Nat
  | [] => none
  | cs => hexAcc cs 0

/-- Python `int(s, 16)`: an optional `0x`/`0X` prefix is allowed, and at
least one digit must follow; anything else raises ValueError (modeled as
`none`).  The source calls this on each 2-character pair inside `Bs2Ba`. -/
def pyInt16 (cs : List Char) : Option Nat :=
  match cs with
  | '0' :: 'x' :: rest => parseHexDigits rest
  | '0' :: 'X' :: rest => parseHexDigits rest
  | _ => parseHexDigits cs

/-- Decimal parse of a nonempty digit string, Python `int(s)` on the
fragment used by the action language (unsigned decimal literals). -/
def parseDecList (cs : List Char) : Option Nat :=
  if cs ≠ [] ∧ cs.all Char.isDigit then
    some (cs.foldl (fun a c => a * 10 + (c.toNat - 48)) 0)
  else none

/-- Split a character list on every occurrence of a separator, the Python
`str.split(sep)` semantics (no separator occurrence gives one field, empty
trailing fields are kept). -/
def splitOnCharAux (sep : Char) : List Char → List Char → List (List Char)
  | [], acc => [acc.reverse]
  | c :: cs, acc =>
    if c = sep then acc.reverse :: splitOnCharAux sep cs []
    else splitOnCharAux sep cs (c :: acc)

/-- Python `s.split(sep)` for a single-character separator, as strings. -/
def splitOnChar (sep : Char) (s : String) : List String :=
  (splitOnCharAux sep s.data []).map String.mk

/-- Python `s.lower()` (ASCII behavior, which is all the action language
uses). -/
def lowerStr (s : String) : String :=
  String.mk (s.data.map Char.toLower)

/-- Whether the string starts with the given character. -/
def headIs (c : Char) (s : String) : Bool :=
  match s.data with
  | d :: _ => d = c
  | [] => false

/-- Whether the string ends with the given character. -/
def lastIs (c : Char) (s : String) : Bool :=
  match s.data.getLast? with
  | some d => d = c
  | none => false

/-- Whether the string starts with the two given characters (used for the
`0x` and `0X` prefix tests). -/
def headIs2 (a b : Char) (s : String) : Bool :=
  match s.data with
  | d :: e :: _ => d = a ∧ e = b
  | _ => false

/-- `LengthAdjust` from the source: pad a hex-digit string with leading "0"
to reach the byte width.  Returns the adjusted string and the digit count
`blen`; note that when the string is longer than `width*2` the string is kept
whole but `blen` stays at `width*2` (the source behaves the same way). -/
def LengthAdjust (bstr : List Char) (width : Nat) : List Char × Nat :=
  let blen := if width ≠ 0 then width * 2 else bstr.length
  let p := if blen % 2 = 1 then ('0' :: bstr, blen + 1) else (bstr, blen)
  let bstr2 := if p.2 > p.1.length then List.replicate (p.2 - p.1.length) '0' ++ p.1 else p.1
  (bstr2, p.2)

/-- The list of 2-character pairs `bstr[b*2:(b+1)*2]` for `b < blen/2`,
exactly the slices the source iterates over in `Bs2Ba` and `Le2N`. -/
def pairsOf (bstr : List Char) (blen : Nat) : List (List Char) :=
  (List.range (blen / 2)).map (fun b => ((bstr.drop (b * 2)).take 2))

/-- `Bs2Ba` from the source: hex-digit string to network-byte-order bytes,
most significant pair first.  `none` models the ValueError that Python
`int(pair, 16)` raises on a non-hex pair. -/
def Bs2Ba (bstr : List Char) (width : Nat) : Option (List Nat) :=
  let p := LengthAdjust bstr width
  (pairsOf p.1 p.2).mapM pyInt16

/-- `Le2N` from the source: byte-pair-reverse a little-endian hex-digit
string, then convert with `Bs2Ba` (at width 0, as in the source). -/
def Le2N (bstr : List Char) (width : Nat) : Option (List Nat) :=
  let p := LengthAdjust bstr width
  Bs2Ba (((pairsOf p.1 p.2).reverse).flatten) 0

/-- Python `hex(n)` for a nonnegative integer: the textual form WITH the
leading `0x` prefix, lowercase digits. -/
def pyHex (n : Nat) : List Char := '0' :: 'x' :: Nat.toDigits 16 n

/-- `LeInt` from the source on a little-endian host: `Le2N(hex(int(source)), width)`.
The `0x` prefix produced by `hex()` is passed straight into `Le2N`. -/
def LeInt (n : Nat) (width : Nat) : Option (List Nat) :=
  Le2N (pyHex n) width

/-- `Guid2N` from the source: canonical 8-4-4-4-12 GUID text to the mixed
little-endian on-disk layout; any other group count or malformed group is an
error (`none`). -/
def Guid2N (g : String) : Option (List Nat) :=
  match splitOnChar '-' g with
  | [a, b, c, d, e] => do
      let x1 ← Le2N a.data 4
      let x2 ← Le2N b.data 2
      let x3 ← Le2N c.data 2
      let x4 ← Bs2Ba d.data 2
      let x5 ← Bs2Ba e.data 6
      pure (x1 ++ x2 ++ x3 ++ x4 ++ x5)
  | _ => none

/-- UTF-8 encoding of one character (scalar value to 1..4 bytes). -/
def utf8Bytes (c : Char) : List Nat :=
  let n := c.toNat
  if n < 0x80 then [n]
  else if n < 0x800 then
    [0xC0 + (n >>> 6), 0x80 + (n % 64)]
  else if n < 0x10000 then
    [0xE0 + (n >>> 12), 0x80 + ((n >>> 6) % 64), 0x80 + (n % 64)]
  else
    [0xF0 + (n >>> 18), 0x80 + ((n >>> 12) % 64), 0x80 + ((n >>> 6) % 64), 0x80 + (n % 64)]

/-- UTF-8 byte sequence of a string, modeling `bytearray(s, encoding="utf-8")`. -/
def strEncode (s : String) : List Nat :=
  (s.data.map utf8Bytes).flatten

/-- Little-endian unsigned decode of a byte sequence, used to state the
round-trip property of claim C2. -/
def leDecode (bs : List Nat) : Nat :=
  bs.foldr (fun b acc => acc * 256 + b) 0

/-- Python integer literal on the fragment the action grammar uses: decimal,
`0x` hex, optional leading minus.  This is what `eval` yields on an integer
literal and what `int(s, base=0)` parses. -/
def pyIntLit (s : String) : Option Int :=
  match s.data with
  | '0' :: 'x' :: rest => (parseHexDigits rest).map Int.ofNat
  | '0' :: 'X' :: rest => (parseHexDigits rest).map Int.ofNat
  | '-' :: rest => (parseDecList rest).map (fun n => -(n : Int))
  | rest => (parseDecList rest).map Int.ofNat

/-- A Python identifier: letter or underscore, then alphanumerics or
underscores.  `eval` raises NameError on a bare identifier. -/
def isPyIdent (s : String) : Bool :=
  match s.data with
  | [] => false
  | c :: cs => (c.isAlpha || c = '_') && cs.all (fun d => d.isAlphanum || d = '_')

/-- `SafeEval` from the source, on the expression fragment the action
grammar exercises: an integer literal evaluates to an int; a bare identifier
raises NameError, which `SafeEval` does not catch (it only catches
SyntaxError), so the constructor aborts; any other string is treated as a
syntax error and the original string is returned — this is exact for the
chaining sentinel "+" and for the empty string case handled by the caller.
Arithmetic expressions are outside the modeled fragment. -/
def SafeEval (s : String) : Except String PyVal :=
  match pyIntLit s with
  | some n => Except.ok (PyVal.int n)
  | none => if isPyIdent s then Except.error "NameError" else Except.ok (PyVal.str s)

/-- Python `s[1:-1]`: strip the first and last character. -/
def stripEnds (s : String) : String :=
  String.mk ((s.data.drop 1).dropLast)

/-- The inner `strx` closure of `EditorAction.__init__`: quotes are stripped
only when `data` starts with a quote AND the ORIGINAL `source_data` ends with
one (the source closure really mixes the two), then the content is UTF-8
encoded. -/
def strx (data : String) (source_data : String) : List Nat :=
  if headIs '"' data ∧ lastIs '"' source_data then
    strEncode (stripEnds data)
  else strEncode data

/-- The inner `intx` closure of `EditorAction.__init__`: a `0x`-prefixed
value goes through `Le2N` on the digits after the prefix; a decimal value
goes through `LeInt`.  An `Except.error` models the uncaught ValueError.
(The source closure tests `data_data` but is only ever called with
`data = data_data`, so testing the argument is equivalent.) -/
def intx (data : String) (width : Nat) : Except String (List Nat) :=
  if headIs2 '0' 'x' data then
    match Le2N (data.data.drop 2) width with
    | some bs => Except.ok bs
    | none => Except.error "ValueError"
  else
    match parseDecList data.data with
    | none => Except.error "ValueError"
    | some n =>
      match LeInt n width with
      | some bs => Except.ok bs
      | none => Except.error "ValueError"

/-- The type-tag dispatch of `EditorAction.__init__`, operating on
`source_data.lower().split("=")` exactly as the source does.  Returns the
optional `hexdata` (still `none` when no branch filled it in, as in the
source) and the optional `from_offset`.  The membership tests follow the
source literally, INCLUDING the duplicated "i32" in the set meant for the
64-bit tags (the source line is `{'i32', 'int64', 'integer64'}`). -/
def encodeSource (source_data : String) : Except String (Option (List Nat) × Option Int) :=
  match splitOnChar '=' (lowerStr source_data) with
  | [_] => Except.ok (some (strx source_data source_data), none)
  | [data_type, data_data] =>
    if data_type = "i8" ∨ data_type = "int8" ∨ data_type = "integer8" then
      (intx data_data 1).map (fun bs => (some bs, none))
    else if data_type = "i16" ∨ data_type = "int16" ∨ data_type = "integer16" then
      (intx data_data 2).map (fun bs => (some bs, none))
    else if data_type = "i32" ∨ data_type = "int32" ∨ data_type = "integer32" then
      (intx data_data 4).map (fun bs => (some bs, none))
    else if data_type = "i32" ∨ data_type = "int64" ∨ data_type = "integer64" then
      (intx data_data 8).map (fun bs => (some bs, none))
    else if data_type = "i128" ∨ data_type = "int128" ∨ data_type = "integer128" then
      (intx data_data 16).map (fun bs => (some bs, none))
    else if data_type = "b" ∨ data_type = "bytes" then
      (if headIs2 '0' 'x' data_data then
        match Bs2Ba (data_data.data.drop 2) 0 with
        | some bs => Except.ok (some bs, none)
        | none => Except.error "ValueError"
      else Except.ok (none, none))
    else if data_type = "g" ∨ data_type = "guid" then
      (match Guid2N data_data with
      | some bs => Except.ok (some bs, none)
      | none => Except.error ("Incorrect Guid format:" ++ data_data))
    else if data_type = "s" ∨ data_type = "string" then
      Except.ok (some (strx data_data source_data), none)
    else if data_type = "from" then
      (match pyIntLit data_data with
      | some f => Except.ok (some (strx data_data source_data), some f)
      | none => Except.error "ValueError")
    else Except.ok (none, none)
  | _ => Except.ok (none, none)

/-- One compiled editor action, mirroring the fields of the source class. -/
structure EditorAction where
  target_offset : Option PyVal := none
  source_data : String := ""
  length : Int := 0
  operation : String := "overwrite"
  hexdata : List Nat := []
  from_offset : Option Int := none
deriving DecidableEq

/-- The field-extraction prologue of `EditorAction.__init__`: the four
positional fields with the `try ... except IndexError: pass` semantics —
missing trailing fields keep their defaults, an empty offset or length field
means `None`, and a `SafeEval` NameError aborts the constructor. -/
def parseFields (eds : List String) : Except String (Option PyVal × String × Option PyVal × String) :=
  let f := fun (s? : Option String) =>
    match s? with
    | none => Except.ok (none : Option PyVal)
    | some s => if s = "" then Except.ok none else (SafeEval s).map some
  do
    let t ← f (eds.get? 0)
    let l ← f (eds.get? 2)
    pure (t, (eds.get? 1).getD "", l, (eds.get? 3).getD "overwrite")

/-- The epilogue of `EditorAction.__init__`: right-pad `hexdata` with zero
bytes when an explicit integer length exceeds it (a longer `hexdata` is
kept whole), and default a missing length to the encoded length.  A length
field that evaluated to a non-integer string is stored by the source and
only fails later inside `min()` at apply time; the model surfaces that
unmodeled corner eagerly as an error. -/
def finishLength (t : Option PyVal) (sd : String) (l : Option PyVal) (op : String)
    (hexdata : List Nat) (f : Option Int) : Except String EditorAction :=
  match l with
  | some (PyVal.int lv) =>
    let hd := if lv - (hexdata.length : Int) > 0 then
        hexdata ++ List.replicate (lv - (hexdata.length : Int)).toNat 0
      else hexdata
    Except.ok { target_offset := t, source_data := sd, length := lv,
                operation := op, hexdata := hd, from_offset := f }
  | none =>
    Except.ok { target_offset := t, source_data := sd, length := (hexdata.length : Int),
                operation := op, hexdata := hexdata, from_offset := f }
  | some (PyVal.str _) => Except.error "TypeError"

/-- `EditorAction.__init__` over the already-tokenized field list (the
output of `ShlexSplit(edstr, {':'})`): extract the fields, require a
nonempty source, dispatch on the type tag, reject a missing or empty
payload, then fix up the length. -/
def mkAction (eds : List String) : Except String EditorAction :=
  match parseFields eds with
  | Except.error e => Except.error e
  | Except.ok (t, source_data, l, op) =>
    if source_data = "" then Except.error "Error"
    else
      match encodeSource source_data with
      | Except.error e => Except.error e
      | Except.ok (none, _) =>
        Except.error ("Invalid data type or format:" ++ source_data ++ ".")
      | Except.ok (some hexdata, from_offset) =>
        if hexdata = [] then
          Except.error ("Invalid data type or format:" ++ source_data ++ ".")
        else finishLength t source_data l op hexdata from_offset

/-- CPython index clamping for a step-1 slice bound over a sequence of
length `n`: a negative index counts from the end (clamped below at 0), a
nonnegative index is clamped above at `n`. -/
def pyIdx (n : Nat) (i : Int) : Nat :=
  if i < 0 then (i + (n : Int)).toNat else min i.toNat n

/-- Python slice read `xs[a:b]` (step 1). -/
def pySliceGet (xs : List Nat) (a b : Int) : List Nat :=
  (xs.take (pyIdx xs.length b)).drop (pyIdx xs.length a)

/-- Python slice assignment `xs[a:b] = repl` (step 1): the replaced range is
clamped, the upper bound never drops below the lower one, and the
replacement may have a different length than the range it replaces, so the
sequence can grow or shrink. -/
def pySliceSet (xs : List Nat) (a b : Int) (repl : List Nat) : List Nat :=
  xs.take (pyIdx xs.length a) ++ repl ++
    xs.drop (max (pyIdx xs.length a) (pyIdx xs.length b))

/-- The buffer editor state: the byte buffer, the boolean change flag (the
source has `self.changed = False`, a flag and not a counter), and the last
applied action kept for offset chaining. -/
structure Editor where
  content : List Nat
  changed : Bool := false
  PreviousAction : Option EditorAction := none
deriving DecidableEq

/-- `Editor.overwrite` from the source:
`dlen = min(action.length, len(content) - action.target_offset)`; a clipped
length below 1 is a silent no-op; otherwise `content[t:t+dlen] = hexdata[:dlen]`
and `changed = True` — unconditionally, with no comparison against the bytes
already present.  A non-integer target offset makes the subtraction raise
TypeError (modeled as an error). -/
def Editor.overwrite (e : Editor) (a : EditorAction) : Except String Editor :=
  match a.target_offset with
  | some (PyVal.int t) =>
    let dlen : Int := min a.length ((e.content.length : Int) - t)
    if dlen < 1 then Except.ok e
    else Except.ok { e with
      content := pySliceSet e.content t (t + dlen) (pySliceGet a.hexdata 0 dlen),
      changed := true }
  | _ => Except.error "TypeError"

/-- `Editor.copyover` from the source: without a `from_offset` it returns
silently; the read `content[f:f+length]` is clamped by slice semantics; an
empty read is a silent no-op; otherwise
`content[t:t+len(data)] = data` (the target side is a slice ASSIGNMENT and
never clips, so the buffer can grow) and `changed = True`. -/
def Editor.copyover (e : Editor) (a : EditorAction) : Except String Editor :=
  match a.from_offset with
  | none => Except.ok e
  | some f =>
    let data := pySliceGet e.content f (f + a.length)
    if data.length < 1 then Except.ok e
    else
      match a.target_offset with
      | some (PyVal.int t) =>
        Except.ok { e with
          content := pySliceSet e.content t (t + (data.length : Int)) data,
          changed := true }
      | _ => Except.error "TypeError"

/-- The offset-resolution prologue of `Editor.edit`: when the target offset
is `None` or the sentinel "+" AND a previous action exists, the offset
becomes `previous.target_offset + previous.length`; if the previous offset
is itself `None` or "+" the source raises `Invalid target offset`, and on
any other string the `+=` raises TypeError. -/
def Editor.resolveOffset (e : Editor) (a : EditorAction) : Except String EditorAction :=
  if (a.target_offset = none ∨ a.target_offset = some (PyVal.str "+")) ∧
      e.PreviousAction.isSome then
    match e.PreviousAction with
    | none => Except.ok a
    | some p =>
      match p.target_offset with
      | some (PyVal.int t0) =>
        Except.ok { a with target_offset := some (PyVal.int (t0 + p.length)) }
      | none => Except.error "Invalid target offset"
      | some (PyVal.str s) =>
        if s = "+" then Except.error "Invalid target offset"
        else Except.error "TypeError"
  else Except.ok a

/-- The operation dispatch of `Editor.edit`: "overwrite" and
"copy"/"copyover" are compared case-sensitively; any other token only
prints `Unsupported editor action` and changes nothing. -/
def Editor.applyOp (e : Editor) (a : EditorAction) : Except String Editor :=
  if a.operation = "overwrite" then e.overwrite a
  else if a.operation = "copy" ∨ a.operation = "copyover" then e.copyover a
  else Except.ok e

/-- `Editor.edit` from the source: resolve the offset, dispatch the
operation, and record the (resolved) action as `PreviousAction` — also for
no-ops, but not when an exception propagated. -/
def Editor.edit (e : Editor) (a : EditorAction) : Except String Editor :=
  match e.resolveOffset a with
  | Except.error msg => Except.error msg
  | Except.ok a2 =>
    match e.applyOp a2 with
    | Except.error msg => Except.error msg
    | Except.ok e2 => Except.ok { e2 with PreviousAction := some a2 }

/-- `Editor.commit` from the source: the buffer is written to the output
file only when the change flag is set; `some` is the written content,
`none` the explicit no-write outcome. -/
def Editor.commit (e : Editor) : Option (List Nat) :=
  if e.changed then some e.content else none

/-! Helper lemmas about the slice primitives and the editor, shared by the
claim theorems below. -/

lemma pyIdx_le (n : Nat) (i : Int) : pyIdx n i ≤ n := by
  unfold pyIdx
  split
  · omega
  · exact Nat.min_le_right _ _

lemma pyIdx_of_nonneg_le (n : Nat) (i : Int) (h0 : 0 ≤ i) (h : i ≤ (n : Int)) :
    pyIdx n i = i.toNat := by
  unfold pyIdx
  split
  · omega
  · have : i.toNat ≤ n := by omega
    exact Nat.min_eq_left this

lemma pyIdx_of_ge (n : Nat) (i : Int) (h : (n : Int) ≤ i) : pyIdx n i = n := by
  unfold pyIdx
  split
  · omega
  · have : n ≤ i.toNat := by omega
    exact Nat.min_eq_right this

lemma length_pySliceGet (xs : List Nat) (a b : Int) :
    (pySliceGet xs a b).length = pyIdx xs.length b - pyIdx xs.length a := by
  unfold pySliceGet
  rw [List.length_drop, List.length_take]
  have := pyIdx_le xs.length b
  omega

lemma length_pySliceSet (xs : List Nat) (a b : Int) (repl : List Nat) :
    (pySliceSet xs a b repl).length =
      pyIdx xs.length a + repl.length +
        (xs.length - max (pyIdx xs.length a) (pyIdx xs.length b)) := by
  unfold pySliceSet
  rw [List.length_append, List.length_append, List.length_take, List.length_drop]
  have := pyIdx_le xs.length a
  omega

/-- With a resolved integer target offset, the offset-resolution prologue of
`edit` passes the action through unchanged. -/
lemma resolveOffset_of_int (e : Editor) (a : EditorAction) (t : Int)
    (ht : a.target_offset = some (PyVal.int t)) :
    e.resolveOffset a = Except.ok a := by
  unfold Editor.resolveOffset
  rw [if_neg]
  rintro ⟨h1 | h2, _⟩
  · rw [ht] at h1; cases h1
  · rw [ht] at h2; cases h2

/-- With no previous action the offset-resolution prologue passes the
action through unchanged (whether or not the offset is the sentinel). -/
lemma resolveOffset_of_noPrev (e : Editor) (a : EditorAction)
    (h : e.PreviousAction = none) :
    e.resolveOffset a = Except.ok a := by
  unfold Editor.resolveOffset
  rw [h]
  simp

/-- An in-range overwrite with a nonnegative integer offset and a payload at
least as long as the declared length always succeeds and preserves the
buffer length; when the offset is at or past the end it is a no-op. -/
lemma overwrite_ok_of_int (e : Editor) (a : EditorAction) (t : Int)
    (ht : a.target_offset = some (PyVal.int t)) (h0 : 0 ≤ t)
    (hlen : a.length ≤ (a.hexdata.length : Int)) :
    ∃ e2, e.overwrite a = Except.ok e2 ∧ e2.content.length = e.content.length ∧
      e2.PreviousAction = e.PreviousAction ∧
      ((e.content.length : Int) ≤ t → e2 = e) := by
  unfold Editor.overwrite
  rw [ht]
  dsimp only
  by_cases hd : min a.length ((e.content.length : Int) - t) < 1
  · rw [if_pos hd]
    exact ⟨e, rfl, rfl, rfl, fun _ => rfl⟩
  · rw [if_neg hd]
    push_neg at hd
    have h3 : min a.length ((e.content.length : Int) - t) ≤ a.length := min_le_left _ _
    have h2 : min a.length ((e.content.length : Int) - t) ≤
        (e.content.length : Int) - t := min_le_right _ _
    refine ⟨_, rfl, ?_, rfl, ?_⟩
    · rw [length_pySliceSet, length_pySliceGet]
      rw [pyIdx_of_nonneg_le e.content.length t h0 (by omega)]
      rw [pyIdx_of_nonneg_le e.content.length
        (t + min a.length ((e.content.length : Int) - t)) (by omega) (by omega)]
      rw [pyIdx_of_nonneg_le a.hexdata.length
        (min a.length ((e.content.length : Int) - t)) (by omega) (by omega)]
      rw [pyIdx_of_nonneg_le a.hexdata.length 0 le_rfl (by omega)]
      omega
    · intro hge
      exfalso
      omega

/-! Claim C1: change tracking of Overwrite. -/

/-- The C1 scenario action: overwrite offset 0 with the bytes 65 66, the
same bytes the target buffer already holds. -/
def c1Action : EditorAction :=
  { target_offset := some (PyVal.int 0), source_data := "AB", length := 2,
    operation := "overwrite", hexdata := [65, 66] }

/-- C1 counterexample: applying an Overwrite whose bytes equal the bytes
already present leaves the content unchanged, yet the change flag is set
and commit writes the file, refuting the claim that a session with no
byte-level difference performs no file write at commit (the source also
keeps a boolean flag, not a counter). -/
theorem c1_counterexample :
    (Editor.edit { content := [65, 66] } c1Action).map
      (fun e => (e.content, e.changed, e.commit)) =
    Except.ok ([65, 66], true, some [65, 66]) := by rfl

/-- C1 (amended): an Overwrite whose clipped length is at least 1 always
sets the boolean change flag — no comparison against the existing bytes is
made — and commit then writes the buffer, even when no byte differed. -/
theorem c1_amended (e : Editor) (a : EditorAction) (t : Int)
    (ht : a.target_offset = some (PyVal.int t))
    (hd : 1 ≤ min a.length ((e.content.length : Int) - t)) :
    ∃ e2, e.overwrite a = Except.ok e2 ∧ e2.changed = true ∧
      e2.commit = some e2.content := by
  unfold Editor.overwrite
  rw [ht]
  dsimp only
  rw [if_neg (not_lt.mpr hd)]
  exact ⟨_, rfl, rfl, rfl⟩

/-- C1 witness: the amended theorem at the identical-bytes input. -/
theorem c1_witness :
    ∃ e2, Editor.overwrite { content := [65, 66] } c1Action = Except.ok e2 ∧
      e2.changed = true ∧ e2.commit = some e2.content :=
  c1_amended { content := [65, 66] } c1Action 0 (by rfl) (by decide)

/-! Claim C2: integer encoding of decimal literals. -/

/-- C2 (code bug): on a little-endian host `LeInt` passes the textual
`hex(n)` INCLUDING its `0x` prefix into the byte-pair reversal, so the pair
holding the letter x makes the base-16 conversion raise ValueError for
every decimal integer literal, and compiling `i16=5` aborts instead of
producing a 2-byte payload.  The `0x`-prefixed input path of the same
dispatcher (which strips the prefix before `Le2N`) shows the intended round
trip: `i16=0x5` encodes to the bytes 05 00, which decode back to 5 as an
unsigned little-endian integer. -/
theorem c2_decimal_valueerror :
    LeInt 5 2 = none ∧ LeInt 0 1 = none ∧ LeInt 255 4 = none ∧
    intx "5" 2 = Except.error "ValueError" ∧
    mkAction ["0", "i16=5"] = Except.error "ValueError" ∧
    intx "0x5" 2 = Except.ok [5, 0] ∧ leDecode [5, 0] = 5 :=
  ⟨rfl, rfl, rfl, rfl, rfl, rfl, rfl⟩

/-! Claim C3: auto-extension of Overwrite. -/

/-- The C3 scenario action: overwrite 4 bytes at offset 4. -/
def c3Action : EditorAction :=
  { target_offset := some (PyVal.int 4), source_data := "payload", length := 4,
    operation := "overwrite", hexdata := [9, 9, 9, 9] }

/-- C3 counterexample: writing 4 bytes at an offset equal to the buffer
length does NOT grow the buffer by 4 zero bytes before writing; the edit is
a silent no-op and the 4-byte buffer is unchanged (no auto-extend exists in
the code). -/
theorem c3_counterexample :
    (Editor.edit { content := [1, 2, 3, 4] } c3Action).map
      (fun e => (e.content, e.changed)) =
    Except.ok ([1, 2, 3, 4], false) := by rfl

/-- C3 (amended): the editor has no auto-extend option at all: an Overwrite
with a nonnegative integer offset and a payload at least as long as its
declared length never grows the buffer (the write is clipped to the
existing size), and an Overwrite whose offset is at or beyond the end
changes nothing. -/
theorem c3_amended (e : Editor) (a : EditorAction) (t : Int)
    (ht : a.target_offset = some (PyVal.int t)) (h0 : 0 ≤ t)
    (hlen : a.length ≤ (a.hexdata.length : Int)) :
    ∃ e2, e.overwrite a = Except.ok e2 ∧
      e2.content.length = e.content.length ∧
      ((e.content.length : Int) ≤ t → e2.content = e.content) := by
  obtain ⟨e2, h1, h2, _, h4⟩ := overwrite_ok_of_int e a t ht h0 hlen
  exact ⟨e2, h1, h2, fun h => by rw [h4 h]⟩

/-- C3 witness: the amended theorem at the 4-bytes-at-the-end input. -/
theorem c3_witness :
    ∃ e2, Editor.overwrite { content := [1, 2, 3, 4] } c3Action = Except.ok e2 ∧
      e2.content.length = 4 ∧
      (((4 : Nat) : Int) ≤ 4 → e2.content = [1, 2, 3, 4]) :=
  c3_amended { content := [1, 2, 3, 4] } c3Action 4 (by rfl) (by decide) (by decide)

/-! Claim C4: recognized integer type tags. -/

/-- C4 counterexample: the tag i64 matches the pattern
(i|int|integer)digits but is NOT recognized — the 64-bit membership set in
the source reads i32, int64, integer64 — so compiling `i64=0x5` fails as an
unknown data type, while `int64=0x5` succeeds with an 8-byte payload. -/
theorem c4_counterexample :
    mkAction ["0", "i64=0x5"] =
      Except.error "Invalid data type or format:i64=0x5." ∧
    (mkAction ["0", "int64=0x5"]).map (fun a => a.hexdata.length) =
      Except.ok 8 :=
  ⟨rfl, rfl⟩

/-- C4 (amended): exactly the enumerated tags are recognized — i8, int8,
integer8 (1 byte); i16, int16, integer16 (2); i32, int32, integer32 (4);
int64, integer64 (8, the tag i64 being absent because the source set
duplicates i32); i128, int128, integer128 (16) — and any other tag of the
same shape, such as i64 or i9, fails as an unknown data type. -/
theorem c4_amended :
    ((mkAction ["0", "i8=0x5"]).map (fun a => a.hexdata.length) = Except.ok 1) ∧
    ((mkAction ["0", "int8=0x5"]).map (fun a => a.hexdata.length) = Except.ok 1) ∧
    ((mkAction ["0", "integer8=0x5"]).map (fun a => a.hexdata.length) = Except.ok 1) ∧
    ((mkAction ["0", "i16=0x5"]).map (fun a => a.hexdata.length) = Except.ok 2) ∧
    ((mkAction ["0", "int16=0x5"]).map (fun a => a.hexdata.length) = Except.ok 2) ∧
    ((mkAction ["0", "integer16=0x5"]).map (fun a => a.hexdata.length) = Except.ok 2) ∧
    ((mkAction ["0", "i32=0x5"]).map (fun a => a.hexdata.length) = Except.ok 4) ∧
    ((mkAction ["0", "int32=0x5"]).map (fun a => a.hexdata.length) = Except.ok 4) ∧
    ((mkAction ["0", "integer32=0x5"]).map (fun a => a.hexdata.length) = Except.ok 4) ∧
    ((mkAction ["0", "int64=0x7"]).map (fun a => a.hexdata.length) = Except.ok 8) ∧
    ((mkAction ["0", "integer64=0x7"]).map (fun a => a.hexdata.length) = Except.ok 8) ∧
    ((mkAction ["0", "i128=0x5"]).map (fun a => a.hexdata.length) = Except.ok 16) ∧
    ((mkAction ["0", "int128=0x5"]).map (fun a => a.hexdata.length) = Except.ok 16) ∧
    ((mkAction ["0", "integer128=0x5"]).map (fun a => a.hexdata.length) = Except.ok 16) ∧
    (mkAction ["0", "i64=0x7"] = Except.error "Invalid data type or format:i64=0x7.") ∧
    (mkAction ["0", "i9=1"] = Except.error "Invalid data type or format:i9=1.") :=
  ⟨rfl, rfl, rfl, rfl, rfl, rfl, rfl, rfl, rfl, rfl, rfl, rfl, rfl, rfl, rfl, rfl⟩

/-! Claim C5: text literal encoding. -/

/-- C5 counterexample: the source field `s=AB` does not encode the UTF-8
bytes of AB (65 66): the whole source field is lower-cased before the tag
split, so the payload is the UTF-8 bytes of ab (97 98), refuting the
claimed case preservation for tagged text literals. -/
theorem c5_counterexample :
    (mkAction ["0", "s=AB"]).map (fun a => a.hexdata) = Except.ok [97, 98] ∧
    strEncode "AB" = [65, 66] :=
  ⟨rfl, rfl⟩

/-- C5 (amended): an untagged text literal is encoded as the UTF-8 bytes of
its own content with character case preserved — a plain literal as it
stands, and a quoted literal (leading quote, with the source field ending
in a quote) with the enclosing quotes stripped — but a value tagged with
s= or with string= is encoded from the LOWER-CASED source field, because
the tag split lower-cases the whole field before dispatching. -/
theorem c5_amended :
    (∀ s w, s ≠ "" → splitOnChar '=' (lowerStr s) = [w] →
      headIs '"' s = false → strEncode s ≠ [] →
      (mkAction ["0", s]).map (fun a => a.hexdata) = Except.ok (strEncode s)) ∧
    (∀ s w, s ≠ "" → splitOnChar '=' (lowerStr s) = [w] →
      headIs '"' s = true → lastIs '"' s = true → strEncode (stripEnds s) ≠ [] →
      (mkAction ["0", s]).map (fun a => a.hexdata) =
        Except.ok (strEncode (stripEnds s))) ∧
    (∀ s v, s ≠ "" → splitOnChar '=' (lowerStr s) = ["s", v] →
      headIs '"' v = false → strEncode v ≠ [] →
      (mkAction ["0", s]).map (fun a => a.hexdata) = Except.ok (strEncode v)) ∧
    (∀ s v, s ≠ "" → splitOnChar '=' (lowerStr s) = ["string", v] →
      headIs '"' v = false → strEncode v ≠ [] →
      (mkAction ["0", s]).map (fun a => a.hexdata) = Except.ok (strEncode v)) := by
  have hP : ∀ s : String, parseFields ["0", s] =
      Except.ok (some (PyVal.int 0), s, none, "overwrite") := fun s => rfl
  refine ⟨?_, ?_, ?_, ?_⟩
  · intro s w hs hsplit hq hne
    have hS : strx s s = strEncode s := by
      unfold strx
      rw [if_neg]
      rintro ⟨h1, _⟩
      rw [hq] at h1
      cases h1
    have hE : encodeSource s = Except.ok (some (strEncode s), none) := by
      unfold encodeSource
      rw [hsplit]
      dsimp only
      rw [hS]
    unfold mkAction
    rw [hP s]
    dsimp only
    rw [if_neg hs, hE]
    dsimp only
    rw [if_neg hne]
    rfl
  · intro s w hs hsplit hq1 hq2 hne
    have hS : strx s s = strEncode (stripEnds s) := by
      unfold strx
      rw [if_pos ⟨hq1, hq2⟩]
    have hE : encodeSource s = Except.ok (some (strEncode (stripEnds s)), none) := by
      unfold encodeSource
      rw [hsplit]
      dsimp only
      rw [hS]
    unfold mkAction
    rw [hP s]
    dsimp only
    rw [if_neg hs, hE]
    dsimp only
    rw [if_neg hne]
    rfl
  · intro s v hs hsplit hq hne
    have hS : strx v s = strEncode v := by
      unfold strx
      rw [if_neg]
      rintro ⟨h1, _⟩
      rw [hq] at h1
      cases h1
    have hE : encodeSource s = Except.ok (some (strEncode v), none) := by
      unfold encodeSource
      rw [hsplit]
      dsimp only
      rw [if_neg (by decide), if_neg (by decide), if_neg (by decide), if_neg (by decide),
        if_neg (by decide), if_neg (by decide), if_neg (by decide), if_pos (by decide)]
      rw [hS]
    unfold mkAction
    rw [hP s]
    dsimp only
    rw [if_neg hs, hE]
    dsimp only
    rw [if_neg hne]
    rfl
  · intro s v hs hsplit hq hne
    have hS : strx v s = strEncode v := by
      unfold strx
      rw [if_neg]
      rintro ⟨h1, _⟩
      rw [hq] at h1
      cases h1
    have hE : encodeSource s = Except.ok (some (strEncode v), none) := by
      unfold encodeSource
      rw [hsplit]
      dsimp only
      rw [if_neg (by decide), if_neg (by decide), if_neg (by decide), if_neg (by decide),
        if_neg (by decide), if_neg (by decide), if_neg (by decide), if_pos (by decide)]
      rw [hS]
    unfold mkAction
    rw [hP s]
    dsimp only
    rw [if_neg hs, hE]
    dsimp only
    rw [if_neg hne]
    rfl

/-- C5 witness: the amended theorem on AB as a plain untagged literal and
as the quoted literal with AB inside (case preserved, quotes stripped), and
on the tagged literals `s=AB` and `string=AB` (payload lower-cased). -/
theorem c5_witness :
    (mkAction ["0", "AB"]).map (fun a => a.hexdata) = Except.ok (strEncode "AB") ∧
    (mkAction ["0", "\"AB\""]).map (fun a => a.hexdata) = Except.ok (strEncode "AB") ∧
    (mkAction ["0", "s=AB"]).map (fun a => a.hexdata) = Except.ok (strEncode "ab") ∧
    (mkAction ["0", "string=AB"]).map (fun a => a.hexdata) = Except.ok (strEncode "ab") :=
  ⟨c5_amended.1 "AB" "ab" (by decide) (by rfl) (by rfl) (by decide),
   c5_amended.2.1 "\"AB\"" "\"ab\"" (by decide) (by rfl) (by rfl) (by rfl) (by decide),
   c5_amended.2.2.1 "s=AB" "ab" (by decide) (by rfl) (by rfl) (by decide),
   c5_amended.2.2.2 "string=AB" "ab" (by decide) (by rfl) (by rfl) (by decide)⟩

/-! Claim C6: offset chaining. -/

/-- The C6 scenario action: sentinel offset, Copy from offset 0 of an empty
buffer (so the clamped read is empty). -/
def c6Action : EditorAction :=
  { target_offset := some (PyVal.str "+"), source_data := "from=0", length := 4,
    operation := "copy", hexdata := [48], from_offset := some 0 }

/-- C6 counterexample: with NO previous action, a sentinel-offset Copy
whose clamped read is empty does not fail at all: it applies as a silent
no-op (and still becomes the previous action), refuting the claim that
every sentinel-offset action without a predecessor fails. -/
theorem c6_counterexample :
    Editor.edit { content := [] } c6Action =
      Except.ok { content := [], changed := false,
                  PreviousAction := some c6Action } := by rfl

/-- C6 (amended): with a previous action whose target offset resolved to an
integer t0, a sentinel or absent target offset resolves to t0 plus the
previous length (concretely, after (0:"AB":2) the action (+:"CD") writes CD
at offset 2); with no previous action a sentinel-offset Overwrite fails —
the unresolved offset reaches the integer subtraction, a TypeError, the
code defining no named UnresolvedOffsetError — and no sentinel-offset
action without a predecessor can ever change the buffer, but a Copy with
nothing to read (or an unrecognized operation) passes as a silent no-op
instead of failing. -/
theorem c6_amended :
    (∀ (e : Editor) (a p : EditorAction) (t0 : Int),
      e.PreviousAction = some p → p.target_offset = some (PyVal.int t0) →
      (a.target_offset = none ∨ a.target_offset = some (PyVal.str "+")) →
      e.resolveOffset a =
        Except.ok { a with target_offset := some (PyVal.int (t0 + p.length)) }) ∧
    (∀ (e : Editor) (a : EditorAction),
      e.PreviousAction = none →
      (a.target_offset = none ∨ a.target_offset = some (PyVal.str "+")) →
      a.operation = "overwrite" →
      e.edit a = Except.error "TypeError") ∧
    (∀ (e : Editor) (a : EditorAction) (e2 : Editor),
      e.PreviousAction = none →
      (a.target_offset = none ∨ a.target_offset = some (PyVal.str "+")) →
      e.edit a = Except.ok e2 → e2.content = e.content) ∧
    ((do
        let x1 ← mkAction ["0", "\"AB\"", "2"]
        let x2 ← mkAction ["+", "\"CD\""]
        let e1 ← Editor.edit { content := [48, 48, 48, 48] } x1
        let e2 ← Editor.edit e1 x2
        pure (e2.content, e2.PreviousAction.bind EditorAction.target_offset)
        : Except String (List Nat × Option PyVal)) =
      Except.ok ([65, 66, 67, 68], some (PyVal.int 2))) := by
  refine ⟨?_, ?_, ?_, by rfl⟩
  · intro e a p t0 hp hp0 hsent
    unfold Editor.resolveOffset
    rw [if_pos ⟨hsent, by rw [hp]; rfl⟩]
    rw [hp]
    dsimp only
    rw [hp0]
  · intro e a hprev hsent hop
    unfold Editor.edit
    rw [resolveOffset_of_noPrev e a hprev]
    dsimp only
    unfold Editor.applyOp
    rw [hop, if_pos rfl]
    unfold Editor.overwrite
    rcases hsent with h | h <;> rw [h]
  · intro e a e2 hprev hsent hok
    unfold Editor.edit at hok
    rw [resolveOffset_of_noPrev e a hprev] at hok
    dsimp only at hok
    unfold Editor.applyOp at hok
    by_cases hov : a.operation = "overwrite"
    · rw [hov, if_pos rfl] at hok
      unfold Editor.overwrite at hok
      rcases hsent with h | h <;> rw [h] at hok <;> cases hok
    · rw [if_neg hov] at hok
      by_cases hcp : a.operation = "copy" ∨ a.operation = "copyover"
      · rw [if_pos hcp] at hok
        unfold Editor.copyover at hok
        cases hfo : a.from_offset with
        | none =>
          rw [hfo] at hok
          dsimp only at hok
          cases hok
          rfl
        | some f =>
          rw [hfo] at hok
          dsimp only at hok
          by_cases hdl : (pySliceGet e.content f (f + a.length)).length < 1
          · rw [if_pos hdl] at hok
            cases hok
            rfl
          · rw [if_neg hdl] at hok
            rcases hsent with h | h <;> rw [h] at hok <;> cases hok
      · rw [if_neg hcp] at hok
        cases hok
        rfl

/-- The previous action used by the C6 witness. -/
def c6Prev : EditorAction :=
  { target_offset := some (PyVal.int 0), source_data := "\"AB\"", length := 2,
    operation := "overwrite", hexdata := [65, 66] }

/-- The sentinel-offset Overwrite used by the C6 witness. -/
def c6Next : EditorAction :=
  { target_offset := some (PyVal.str "+"), source_data := "\"CD\"", length := 2,
    operation := "overwrite", hexdata := [67, 68] }

/-- C6 witness: the amended theorem at concrete inputs — the resolution
formula with a previous action at offset 0 and length 2, the TypeError for
a sentinel Overwrite without a predecessor, and the no-write guarantee at
the silent-no-op Copy of the counterexample scenario. -/
theorem c6_witness :
    (Editor.resolveOffset
        { content := [48, 48, 48, 48], changed := true, PreviousAction := some c6Prev }
        c6Next =
      Except.ok { c6Next with target_offset := some (PyVal.int (0 + c6Prev.length)) }) ∧
    (Editor.edit { content := [1, 2, 3] } c6Next = Except.error "TypeError") ∧
    (({ content := [], changed := false,
        PreviousAction := some c6Action } : Editor).content = ([] : List Nat)) :=
  ⟨c6_amended.1 _ c6Next c6Prev 0 rfl rfl (Or.inr rfl),
   c6_amended.2.1 _ c6Next rfl (Or.inr rfl) rfl,
   c6_amended.2.2.1 { content := [] } c6Action _ rfl (Or.inr rfl) rfl⟩

/-! Claim C7: unrecognized operation tokens. -/

/-- C7 counterexample: the action string with operation field Overwrite
(capital O, hence not the recognized lower-case token) compiles WITHOUT any
error — the compiler never validates nor lower-cases the operation — and
applying it is a silent no-op rather than an UnsupportedOperationError. -/
theorem c7_counterexample :
    (mkAction ["0", "ab", "2", "Overwrite"]).map (fun a => a.operation) =
      Except.ok "Overwrite" ∧
    ((mkAction ["0", "ab", "2", "Overwrite"]).bind
        (fun a => Editor.edit { content := [1, 2] } a)).map
      (fun e => (e.content, e.changed)) = Except.ok ([1, 2], false) :=
  ⟨rfl, rfl⟩

/-- C7 (amended): the compiler stores the operation field verbatim — any
token whatsoever compiles — and at apply time the comparison is
case-sensitive against the tokens overwrite, copy and copyover; an action
carrying any other operation token is applied as a silent no-op (a warning
is printed) and still becomes the previous-action context. -/
theorem c7_amended :
    (∀ op : String,
      (mkAction ["0", "ab", "2", op]).map (fun a => a.operation) = Except.ok op) ∧
    (∀ (e : Editor) (a : EditorAction) (t : Int),
      a.target_offset = some (PyVal.int t) →
      a.operation ≠ "overwrite" → a.operation ≠ "copy" → a.operation ≠ "copyover" →
      e.edit a = Except.ok { e with PreviousAction := some a }) := by
  constructor
  · intro op
    rfl
  · intro e a t ht h1 h2 h3
    unfold Editor.edit
    rw [resolveOffset_of_int e a t ht]
    dsimp only
    unfold Editor.applyOp
    rw [if_neg h1, if_neg (by rintro (h | h) <;> [exact h2 h; exact h3 h])]

/-- The unrecognized-operation action used by the C7 witness. -/
def c7Action : EditorAction :=
  { target_offset := some (PyVal.int 0), source_data := "ab", length := 2,
    operation := "Overwrite", hexdata := [97, 98] }

/-- C7 witness: the amended theorem at the token foo and at a concrete
capital-O Overwrite action applied to a 2-byte buffer. -/
theorem c7_witness :
    (mkAction ["0", "ab", "2", "foo"]).map (fun a => a.operation) =
      Except.ok "foo" ∧
    Editor.edit { content := [1, 2] } c7Action =
      Except.ok { content := [1, 2], changed := false,
                  PreviousAction := some c7Action } :=
  ⟨c7_amended.1 "foo",
   c7_amended.2 { content := [1, 2] } c7Action 0 rfl (by decide) (by decide) (by decide)⟩

/-! Claim C8: Copy without a resolvable source. -/

/-- The compiled form of the action string 0:ab:2:copy, which carries no
from= source. -/
def c8Action : EditorAction :=
  { target_offset := some (PyVal.int 0), source_data := "ab", length := 2,
    operation := "copy", hexdata := [97, 98], from_offset := none }

/-- C8 counterexample: a Copy action whose source field carries no from=
origin compiles successfully — no compilation failure occurs — and applying
it is a silent no-op that leaves the buffer untouched, refuting both halves
of the claim. -/
theorem c8_counterexample :
    mkAction ["0", "ab", "2", "copy"] = Except.ok c8Action ∧
    ((mkAction ["0", "ab", "2", "copy"]).bind
        (fun a => Editor.edit { content := [1, 2] } a)).map
      (fun e => (e.content, e.changed)) = Except.ok ([1, 2], false) :=
  ⟨rfl, rfl⟩

/-- C8 (amended): a Copy descriptor without a resolvable source offset is
accepted by the compiler (the from_offset field is simply left empty), and
at apply time `copyover` returns immediately without reading or writing;
the action still becomes the previous-action context. -/
theorem c8_amended :
    (mkAction ["0", "ab", "2", "copy"] = Except.ok c8Action ∧
      c8Action.operation = "copy" ∧ c8Action.from_offset = none) ∧
    (∀ (e : Editor) (a : EditorAction) (t : Int),
      a.target_offset = some (PyVal.int t) → a.operation = "copy" →
      a.from_offset = none →
      e.edit a = Except.ok { e with PreviousAction := some a }) := by
  refine ⟨⟨rfl, rfl, rfl⟩, ?_⟩
  intro e a t ht hop hf
  unfold Editor.edit
  rw [resolveOffset_of_int e a t ht]
  dsimp only
  unfold Editor.applyOp
  rw [hop, if_neg (by decide), if_pos (Or.inl rfl)]
  unfold Editor.copyover
  rw [hf]

/-- C8 witness: the amended theorem applying the sourceless Copy to a
concrete 3-byte buffer. -/
theorem c8_witness :
    Editor.edit { content := [7, 8, 9] } c8Action =
      Except.ok { content := [7, 8, 9], changed := false,
                  PreviousAction := some c8Action } :=
  c8_amended.2 { content := [7, 8, 9] } c8Action 0 rfl rfl rfl

/-! Claim C9: Overwrite clipping without auto-extend. -/

/-- C9: an Overwrite whose region exceeds the buffer (there is no
auto-extend, so this is always the clipping case) has its write length
clipped to the remaining buffer size `len - t`; when that remainder is
below 1 the action is a silent no-op — no error, buffer and flag unchanged,
only the previous-action context updated — and otherwise exactly the
remaining `len - t` bytes are written. -/
theorem c9_clip_noop (e : Editor) (a : EditorAction) (t : Int)
    (ht : a.target_offset = some (PyVal.int t))
    (hop : a.operation = "overwrite")
    (hover : (e.content.length : Int) - t < a.length) :
    (((e.content.length : Int) - t < 1 →
        e.edit a = Except.ok { e with PreviousAction := some a }) ∧
     (1 ≤ (e.content.length : Int) - t →
        e.edit a = Except.ok
          { content := pySliceSet e.content t (e.content.length : Int)
              (pySliceGet a.hexdata 0 ((e.content.length : Int) - t)),
            changed := true, PreviousAction := some a })) := by
  have hmin : min a.length ((e.content.length : Int) - t) =
      (e.content.length : Int) - t := min_eq_right (le_of_lt hover)
  unfold Editor.edit
  rw [resolveOffset_of_int e a t ht]
  dsimp only
  unfold Editor.applyOp
  rw [hop, if_pos rfl]
  unfold Editor.overwrite
  rw [ht]
  dsimp only
  rw [hmin]
  constructor
  · intro h
    rw [if_pos h]
  · intro h
    rw [if_neg (not_lt.mpr h)]
    have ht2 : t + ((e.content.length : Int) - t) = (e.content.length : Int) := by ring
    rw [ht2]

/-- The C9 witness action writing 4 bytes at offset 4 (zero room). -/
def c9End : EditorAction :=
  { target_offset := some (PyVal.int 4), source_data := "p", length := 4,
    operation := "overwrite", hexdata := [9, 9, 9, 9] }

/-- The C9 witness action writing 4 bytes at offset 2 (room for 2). -/
def c9Mid : EditorAction :=
  { target_offset := some (PyVal.int 2), source_data := "p", length := 4,
    operation := "overwrite", hexdata := [9, 9, 9, 9] }

/-- C9 witness: the theorem at a 4-byte buffer — writing 4 bytes at offset
4 changes nothing, and writing 4 bytes at offset 2 writes only the 2
remaining bytes. -/
theorem c9_witness :
    Editor.edit { content := [1, 2, 3, 4] } c9End =
      Except.ok { content := [1, 2, 3, 4], changed := false,
                  PreviousAction := some c9End } ∧
    Editor.edit { content := [1, 2, 3, 4] } c9Mid =
      Except.ok { content := [1, 2, 9, 9], changed := true,
                  PreviousAction := some c9Mid } :=
  ⟨(c9_clip_noop { content := [1, 2, 3, 4] } c9End 4 rfl rfl (by decide)).1 (by decide),
   (c9_clip_noop { content := [1, 2, 3, 4] } c9Mid 2 rfl rfl (by decide)).2 (by decide)⟩

/-! Claim C10: Copy extends the buffer, Overwrite never does. -/

/-- C10: a Copy with a resolvable source and a nonempty clamped read writes
every byte it read: the target-side slice assignment never clips, so when
the target region passes the current end the buffer grows, and when the
target offset is at or beyond the current end the copied bytes are placed
at the current end (not at the target offset); an Overwrite, in contrast,
always preserves the buffer length. -/
theorem c10_copy_extends (e : Editor) (a : EditorAction) (f t : Int)
    (hf : a.from_offset = some f) (ht : a.target_offset = some (PyVal.int t))
    (hop : a.operation = "copy") (h0 : 0 ≤ t)
    (hne : pySliceGet e.content f (f + a.length) ≠ []) :
    (e.edit a = Except.ok
      { content := pySliceSet e.content t
          (t + ((pySliceGet e.content f (f + a.length)).length : Int))
          (pySliceGet e.content f (f + a.length)),
        changed := true, PreviousAction := some a }) ∧
    ((e.content.length : Int) < t + (pySliceGet e.content f (f + a.length)).length →
      e.content.length <
        (pySliceSet e.content t
          (t + ((pySliceGet e.content f (f + a.length)).length : Int))
          (pySliceGet e.content f (f + a.length))).length) ∧
    ((e.content.length : Int) ≤ t →
      pySliceSet e.content t
          (t + ((pySliceGet e.content f (f + a.length)).length : Int))
          (pySliceGet e.content f (f + a.length)) =
        e.content ++ pySliceGet e.content f (f + a.length)) ∧
    (∀ (e2 : Editor) (a2 : EditorAction) (t2 : Int),
      a2.target_offset = some (PyVal.int t2) → 0 ≤ t2 →
      a2.length ≤ (a2.hexdata.length : Int) →
      ∃ e3, e2.overwrite a2 = Except.ok e3 ∧
        e3.content.length = e2.content.length) := by
  have hd1 : 1 ≤ (pySliceGet e.content f (f + a.length)).length :=
    List.length_pos.mpr hne
  refine ⟨?_, ?_, ?_, ?_⟩
  · unfold Editor.edit
    rw [resolveOffset_of_int e a t ht]
    dsimp only
    unfold Editor.applyOp
    rw [hop, if_neg (by decide), if_pos (Or.inl rfl)]
    unfold Editor.copyover
    rw [hf]
    dsimp only
    rw [if_neg (not_lt.mpr hd1), ht]
  · intro hlt
    rw [length_pySliceSet]
    by_cases hc : (e.content.length : Int) ≤ t
    · rw [pyIdx_of_ge _ _ hc, pyIdx_of_ge _ _ (by omega), Nat.max_self]
      omega
    · push_neg at hc
      rw [pyIdx_of_nonneg_le _ _ h0 (by omega), pyIdx_of_ge _ _ (by omega),
        Nat.max_eq_right (by omega)]
      omega
  · intro hc
    unfold pySliceSet
    rw [pyIdx_of_ge _ _ hc, pyIdx_of_ge _ _ (by omega), Nat.max_self,
      List.take_length, List.drop_length, List.append_nil]
  · intro e2 a2 t2 ht2 h02 hlen2
    obtain ⟨e3, hh1, hh2, _, _⟩ := overwrite_ok_of_int e2 a2 t2 ht2 h02 hlen2
    exact ⟨e3, hh1, hh2⟩

/-- The C10 witness action: copy 2 bytes from offset 0 to offset 4 of a
2-byte buffer (the target offset is beyond the end). -/
def c10Action : EditorAction :=
  { target_offset := some (PyVal.int 4), source_data := "from=0", length := 2,
    operation := "copy", hexdata := [48], from_offset := some 0 }

/-- C10 witness: the theorem at a 2-byte buffer — the copy places the two
read bytes at the current end, growing the buffer to 4 bytes. -/
theorem c10_witness :
    Editor.edit { content := [1, 2] } c10Action =
      Except.ok { content := [1, 2, 1, 2], changed := true,
                  PreviousAction := some c10Action } ∧
    pySliceSet [1, 2] 4 (4 + ((2 : Nat) : Int)) [1, 2] = [1, 2] ++ [1, 2] :=
  ⟨(c10_copy_extends { content := [1, 2] } c10Action 0 4 rfl rfl rfl
      (by decide) (by decide)).1,
   (c10_copy_extends { content := [1, 2] } c10Action 0 4 rfl rfl rfl
      (by decide) (by decide)).2.2.1 (by decide)⟩

end SBSED
